import Mathlib

/-!
Verification of the Product Stock API (`main.py`): a catalog of products,
each with a FIFO list of consumable license strings, persisted as a JSON
document with timestamped backups. We embed the data model and the request
handlers as pure Lean functions and prove the behavioural properties.
-/

/-- A single consumable stock unit: an opaque license string. -/
structure StockItem where
  license : String
deriving DecidableEq

/-- A sellable product: metadata plus an ordered stock queue. -/
structure Product where
  id : Int
  name : String
  image : String
  imagehover : Option String
  description : String
  price : Rat
  delivery_method : String
  stock : List StockItem
deriving DecidableEq

/-- The persisted catalog: category name mapped to an ordered product list,
in insertion order (Python dict iteration order). -/
abbrev Catalog := List (String × List Product)

/-- An HTTP error raised by a handler (`HTTPException(status_code, detail)`). -/
structure HTTPException where
  status_code : Nat
  detail : String
deriving DecidableEq

/-- The filesystem state the Store touches: the primary stock file (absent or
holding a catalog document) and the backup directory contents. -/
structure FS where
  stockFile : Option Catalog
  backups : List (String × Catalog)
deriving DecidableEq

/-- Seed product of the "BloodStrike" category in the default document. -/
def bloodstrike_product : Product :=
  { id := 1
  , name := "Blood Strike Account"
  , image := "https://pic.bittopup.com/apiUpload/2ccf31c25175abf452e9766912a42c73.jpg"
  , imagehover := some "https://imgop.itemku.com/?url=https%3A%2F%2Fd1x91p7vw3vuq8.cloudfront.net%2Fitemku-upload%2F2025715%2Fbu7sesjsnbxx2ftm9kc8q_thumbnail.jpg&w=1033&q=10"
  , description := "Best Account BloodStrike"
  , price := 10
  , delivery_method := "instant"
  , stock :=
      [ { license := "email@example.com:password123" }
      , { license := "email2@example.com:password456" } ] }

/-- Seed product of the "Window Protection 11" category in the default document. -/
def window_product : Product :=
  { id := 2
  , name := "Window Protection"
  , image := "https://pic.bittopup.com/apiUpload/2ccf31c25175abf452e9766912a42c73.jpg"
  , imagehover := some "https://encrypted-tbn0.gstatic.com/images?q=tbn:ANd9GcQ4NOVVkcMqtvEutXTu_StAuIwGGvO9DevFkg&s"
  , description := "Best Window Protection"
  , price := 30
  , delivery_method := "Waiting"
  , stock :=
      [ { license := "email@example.com:password123" }
      , { license := "email2@example.com:password456" }
      , { license := "email2@example.com:password456" }
      , { license := "email2@example.com:password456" } ] }

/-- The default two-category document synthesized by `load_stock_data` when
the stock file does not exist. -/
def default_data : Catalog :=
  [ ("BloodStrike", [bloodstrike_product])
  , ("Window Protection 11", [window_product]) ]

/-- `save_stock_data`: if the primary file exists, first copy its current
content verbatim to a backup file named `stock_backup_<t>.json`, then
overwrite the primary file with the new document.  `t` is the
second-granularity timestamp `datetime.now().strftime("%Y%m%d_%H%M%S")`. -/
def save_stock_data (t : String) (d : Catalog) (fs : FS) : FS :=
  match fs.stockFile with
  | some old =>
      { stockFile := some d
      , backups := ("stock_backup_" ++ t ++ ".json", old) :: fs.backups }
  | none =>
      { stockFile := some d, backups := fs.backups }

/-- `load_stock_data`: read the persisted document; if the file is absent,
synthesize the default document, persist it, and return it. -/
def load_stock_data (t : String) (fs : FS) : FS × Catalog :=
  match fs.stockFile with
  | some c => (fs, c)
  | none => (save_stock_data t default_data fs, default_data)

/-- The inner scan of `get_product` / `get_product_stock`: first product in a
category's list whose id matches. -/
def findProductIn (pid : Int) : List Product → Option Product
  | [] => none
  | p :: ps => if p.id = pid then some p else findProductIn pid ps

/-- The nested scan over all categories (insertion order) then products
(list order): the first product whose id matches, with its owning category. -/
def findProduct (pid : Int) : Catalog → Option (String × Product)
  | [] => none
  | (cname, ps) :: rest =>
    match findProductIn pid ps with
    | some p => some (cname, p)
    | none => findProduct pid rest

/-- `GET /api/products`: flatten every category's product list, category
order then in-category order. -/
def get_all_products : Catalog → List Product
  | [] => []
  | (_, ps) :: rest => ps ++ get_all_products rest

/-- `GET /api/products/{id}`: first matching product, or 404. -/
def get_product (pid : Int) (c : Catalog) : Except HTTPException Product :=
  match findProduct pid c with
  | some (_, p) => .ok p
  | none => .error ⟨404, "Product with ID " ++ toString pid ++ " not found"⟩

/-- `GET /api/categories`: each category name with its product count. -/
def get_categories : Catalog → List (String × Nat)
  | [] => []
  | (cname, ps) :: rest => (cname, ps.length) :: get_categories rest

/-- `GET /api/categories/{name}`: dict membership then lookup. -/
def lookupCategory (name : String) : Catalog → Option (List Product)
  | [] => none
  | (cname, ps) :: rest => if cname = name then some ps else lookupCategory name rest

/-- `GET /api/categories/{name}`: the named category's products, or 404. -/
def get_products_by_category (name : String) (c : Catalog) :
    Except HTTPException (String × List Product) :=
  match lookupCategory name c with
  | some ps => .ok (name, ps)
  | none => .error ⟨404, "Category \x27" ++ name ++ "\x27 not found"⟩

/-- Response shape of `GET /api/stock/{id}`. -/
structure StockSummary where
  product_id : Int
  product_name : String
  category : String
  stock_count : Nat
  available : Bool
  delivery_method : String
deriving DecidableEq

/-- `GET /api/stock/{id}`: stock count and availability, or 404. -/
def get_product_stock (pid : Int) (c : Catalog) : Except HTTPException StockSummary :=
  match findProduct pid c with
  | some (cname, p) =>
      .ok { product_id := pid
          , product_name := p.name
          , category := cname
          , stock_count := p.stock.length
          , available := decide (0 < p.stock.length)
          , delivery_method := p.delivery_method }
  | none => .error ⟨404, "Product with ID " ++ toString pid ++ " not found"⟩

/-- Response shape of `POST /api/stock/consume/{id}`. -/
structure ConsumeResponse where
  success : Bool
  product_id : Int
  product_name : String
  category : String
  consumed_license : StockItem
  remaining_stock : Nat
  message : String
deriving DecidableEq

/-- Outcome of the inner product loop of `consume_stock_item` within one
category: no id match, a match with empty stock (raises 400), or a
successful pop of the head stock item. -/
inductive ConsumeStep where
  | noMatch
  | outOfStock (pname : String)
  | consumed (newProducts : List Product) (item : StockItem) (pname : String)
      (remaining : Nat)

/-- Inner loop of `consume_stock_item` over one category's products: at the
first id match either pop `stock[0]` or report out-of-stock. -/
def consumeInProducts (pid : Int) : List Product → ConsumeStep
  | [] => .noMatch
  | p :: ps =>
    if p.id = pid then
      match p.stock with
      | [] => .outOfStock p.name
      | item :: rest => .consumed ({ p with stock := rest } :: ps) item p.name rest.length
    else
      match consumeInProducts pid ps with
      | .noMatch => .noMatch
      | .outOfStock n => .outOfStock n
      | .consumed ps2 item n r => .consumed (p :: ps2) item n r

/-- `POST /api/stock/consume/{id}` (pure part): scan categories in order; at
the first product with the given id pop the head stock item and return the
updated catalog with the response, raise 400 if its stock is empty, and 404
when no product matches. -/
def consume_stock_item (pid : Int) : Catalog →
    Except HTTPException (Catalog × ConsumeResponse)
  | [] => .error ⟨404, "Product with ID " ++ toString pid ++ " not found"⟩
  | (cname, ps) :: rest =>
    match consumeInProducts pid ps with
    | .consumed ps2 item pname r =>
        .ok ((cname, ps2) :: rest,
          { success := true
          , product_id := pid
          , product_name := pname
          , category := cname
          , consumed_license := item
          , remaining_stock := r
          , message := "Stock item consumed successfully" })
    | .outOfStock pname =>
        .error ⟨400, "Product " ++ pname ++ " is out of stock"⟩
    | .noMatch =>
        match consume_stock_item pid rest with
        | .ok (c2, resp) => .ok ((cname, ps) :: c2, resp)
        | .error e => .error e

/-- One entry of the dashboard's low-stock list. -/
structure LowStockEntry where
  id : Int
  name : String
  category : String
  stock_count : Nat
  price : Rat
deriving DecidableEq

/-- Response shape of `GET /api/dashboard`. -/
structure DashboardStats where
  total_categories : Nat
  total_products : Nat
  total_stock_items : Nat
  low_stock_products : List LowStockEntry
  low_stock_count : Nat
  updated_at : String
deriving DecidableEq

/-- Dashboard inner loop: the low-stock entries (stock count at most 3)
contributed by one category's products, in order. -/
def category_low_stock (cname : String) : List Product → List LowStockEntry
  | [] => []
  | p :: ps =>
    if p.stock.length ≤ 3 then
      { id := p.id, name := p.name, category := cname
      , stock_count := p.stock.length, price := p.price } :: category_low_stock cname ps
    else category_low_stock cname ps

/-- Dashboard loop: low-stock entries over all categories, in order. -/
def low_stock_products_of : Catalog → List LowStockEntry
  | [] => []
  | (cname, ps) :: rest => category_low_stock cname ps ++ low_stock_products_of rest

/-- Dashboard accumulator `total_products`. -/
def total_products_of : Catalog → Nat
  | [] => 0
  | (_, ps) :: rest => ps.length + total_products_of rest

/-- Dashboard accumulator `total_stock` within one category. -/
def stock_in_products : List Product → Nat
  | [] => 0
  | p :: ps => p.stock.length + stock_in_products ps

/-- Dashboard accumulator `total_stock` over all categories. -/
def total_stock_of : Catalog → Nat
  | [] => 0
  | (_, ps) :: rest => stock_in_products ps + total_stock_of rest

/-- `GET /api/dashboard`: aggregate statistics; `t` is the generation
timestamp `datetime.now().isoformat()`. -/
def get_dashboard_stats (t : String) (c : Catalog) : DashboardStats :=
  { total_categories := c.length
  , total_products := total_products_of c
  , total_stock_items := total_stock_of c
  , low_stock_products := low_stock_products_of c
  , low_stock_count := (low_stock_products_of c).length
  , updated_at := t }

/-- Full `GET /api/products` handler: load then flatten. -/
def handle_get_all_products (t : String) (fs : FS) : FS × List Product :=
  ((load_stock_data t fs).1, get_all_products (load_stock_data t fs).2)

/-- Full `GET /api/products/{id}` handler: load then scan. -/
def handle_get_product (t : String) (pid : Int) (fs : FS) :
    FS × Except HTTPException Product :=
  ((load_stock_data t fs).1, get_product pid (load_stock_data t fs).2)

/-- Full `GET /api/categories` handler. -/
def handle_get_categories (t : String) (fs : FS) : FS × List (String × Nat) :=
  ((load_stock_data t fs).1, get_categories (load_stock_data t fs).2)

/-- Full `GET /api/categories/{name}` handler. -/
def handle_get_category (t : String) (name : String) (fs : FS) :
    FS × Except HTTPException (String × List Product) :=
  ((load_stock_data t fs).1, get_products_by_category name (load_stock_data t fs).2)

/-- Full `GET /api/stock/{id}` handler. -/
def handle_get_stock (t : String) (pid : Int) (fs : FS) :
    FS × Except HTTPException StockSummary :=
  ((load_stock_data t fs).1, get_product_stock pid (load_stock_data t fs).2)

/-- Full `GET /api/dashboard` handler. -/
def handle_dashboard (t : String) (fs : FS) : FS × DashboardStats :=
  ((load_stock_data t fs).1, get_dashboard_stats t (load_stock_data t fs).2)

/-- Health response shape. -/
structure HealthStatus where
  status : String
  timestamp : String
  service : String
deriving DecidableEq

/-- Full `GET /api/health` handler: attempt a load, report healthy. -/
def handle_health (t : String) (fs : FS) : FS × HealthStatus :=
  ((load_stock_data t fs).1,
    { status := "healthy", timestamp := t, service := "Product Stock API" })

/-- Full `POST /api/stock/consume/{id}` handler: load, consume, and persist
the updated catalog only on success. -/
def handle_consume (t : String) (pid : Int) (fs : FS) :
    FS × Except HTTPException ConsumeResponse :=
  match consume_stock_item pid (load_stock_data t fs).2 with
  | .ok (c2, resp) => (save_stock_data t c2 (load_stock_data t fs).1, .ok resp)
  | .error e => ((load_stock_data t fs).1, .error e)

/-- Specification-side updater: replace the first id-matching product's stock
by its tail, leaving everything else untouched (within one category). -/
def popFirstProducts (pid : Int) : List Product → List Product
  | [] => []
  | p :: ps =>
    if p.id = pid then { p with stock := p.stock.tail } :: ps
    else p :: popFirstProducts pid ps

/-- Specification-side updater over the whole catalog: update the first
category containing an id match, leave the others untouched. -/
def popFirst (pid : Int) : Catalog → Catalog
  | [] => []
  | (cname, ps) :: rest =>
    match findProductIn pid ps with
    | some _ => (cname, popFirstProducts pid ps) :: rest
    | none => (cname, ps) :: popFirst pid rest

/-- Repeated consumption: apply `consume_stock_item` `k` times, keeping the
catalog unchanged on an error response. -/
def consumeIter (pid : Int) (c : Catalog) : Nat → Catalog
  | 0 => c
  | k + 1 =>
    match consume_stock_item pid (consumeIter pid c k) with
    | .ok (c2, _) => c2
    | .error _ => consumeIter pid c k

/-! ### Helper lemmas -/

lemma findProductIn_id {pid : Int} {ps : List Product} {q : Product}
    (h : findProductIn pid ps = some q) : q.id = pid := by
  induction ps with
  | nil => simp [findProductIn] at h
  | cons p ps ih =>
    by_cases hp : p.id = pid
    · simp [findProductIn, hp] at h
      simpa [← h] using hp
    · simp [findProductIn, hp] at h
      exact ih h

lemma findProductIn_mem {pid : Int} {ps : List Product} {q : Product}
    (h : findProductIn pid ps = some q) : q ∈ ps := by
  induction ps with
  | nil => simp [findProductIn] at h
  | cons p ps ih =>
    by_cases hp : p.id = pid
    · simp [findProductIn, hp] at h
      simp [h]
    · simp [findProductIn, hp] at h
      exact List.mem_cons_of_mem p (ih h)

lemma findProductIn_eq_none {pid : Int} {ps : List Product} :
    findProductIn pid ps = none ↔ ∀ q ∈ ps, q.id ≠ pid := by
  induction ps with
  | nil => simp [findProductIn]
  | cons p ps ih =>
    by_cases hp : p.id = pid
    · simp [findProductIn, hp]
    · simp [findProductIn, hp, ih]

lemma findProductIn_of_mem {ps : List Product} {p : Product} (hp : p ∈ ps) :
    ∃ q, findProductIn p.id ps = some q ∧ q.id = p.id := by
  induction ps with
  | nil => simp at hp
  | cons p0 ps ih =>
    by_cases h0 : p0.id = p.id
    · exact ⟨p0, by simp [findProductIn, h0], h0⟩
    · have hps : p ∈ ps := by
        rcases List.mem_cons.mp hp with h | h
        · exact absurd (h ▸ rfl) h0
        · exact h
      rcases ih hps with ⟨q, hq, hqid⟩
      exact ⟨q, by simp [findProductIn, h0, hq], hqid⟩

lemma findProduct_id {pid : Int} {c : Catalog} {cn : String} {q : Product}
    (h : findProduct pid c = some (cn, q)) : q.id = pid := by
  induction c with
  | nil => simp [findProduct] at h
  | cons kv rest ih =>
    obtain ⟨cname, ps⟩ := kv
    cases hin : findProductIn pid ps with
    | some p0 =>
      simp [findProduct, hin] at h
      exact h.2 ▸ findProductIn_id hin
    | none =>
      simp [findProduct, hin] at h
      exact ih h

lemma findProduct_mem {pid : Int} {c : Catalog} {cn : String} {q : Product}
    (h : findProduct pid c = some (cn, q)) : q ∈ get_all_products c := by
  induction c with
  | nil => simp [findProduct] at h
  | cons kv rest ih =>
    obtain ⟨cname, ps⟩ := kv
    cases hin : findProductIn pid ps with
    | some p0 =>
      simp [findProduct, hin] at h
      simp [get_all_products, h.2 ▸ findProductIn_mem hin]
    | none =>
      simp [findProduct, hin] at h
      simp [get_all_products, ih h]

lemma findProduct_eq_none {pid : Int} {c : Catalog} :
    findProduct pid c = none ↔ ∀ q ∈ get_all_products c, q.id ≠ pid := by
  induction c with
  | nil => simp [findProduct, get_all_products]
  | cons kv rest ih =>
    obtain ⟨cname, ps⟩ := kv
    cases hin : findProductIn pid ps with
    | some p0 =>
      have hid := findProductIn_id hin
      have hmem := findProductIn_mem hin
      constructor
      · intro h
        simp [findProduct, hin] at h
      · intro h
        exact absurd hid (h p0 (by simp [get_all_products, hmem]))
    | none =>
      constructor
      · intro h q hq
        rcases List.mem_append.mp (by simpa [get_all_products] using hq) with h1 | h1
        · exact findProductIn_eq_none.mp hin q h1
        · exact (ih.mp (by simpa [findProduct, hin] using h)) q h1
      · intro h
        simp [findProduct, hin]
        exact ih.mpr (fun q hq => h q (by simp [get_all_products, hq]))

lemma findProduct_of_mem {c : Catalog} {p : Product} (hp : p ∈ get_all_products c) :
    ∃ cn q, findProduct p.id c = some (cn, q) ∧ q.id = p.id := by
  induction c with
  | nil => simp [get_all_products] at hp
  | cons kv rest ih =>
    obtain ⟨cname, ps⟩ := kv
    cases hin : findProductIn p.id ps with
    | some q => exact ⟨cname, q, by simp [findProduct, hin], findProductIn_id hin⟩
    | none =>
      have hps : p ∈ get_all_products rest := by
        rcases List.mem_append.mp (by simpa [get_all_products] using hp) with h | h
        · rcases findProductIn_of_mem h with ⟨q, hq, _⟩
          rw [hin] at hq; cases hq
        · exact h
      rcases ih hps with ⟨cn, q, hq, hqid⟩
      exact ⟨cn, q, by simp [findProduct, hin, hq], hqid⟩

lemma consumeInProducts_of_none {pid : Int} {ps : List Product}
    (h : findProductIn pid ps = none) : consumeInProducts pid ps = .noMatch := by
  induction ps with
  | nil => rfl
  | cons p ps ih =>
    by_cases hp : p.id = pid
    · simp [findProductIn, hp] at h
    · simp [findProductIn, hp] at h
      simp [consumeInProducts, hp, ih h]

lemma consumeInProducts_of_empty {pid : Int} {ps : List Product} {p : Product}
    (h : findProductIn pid ps = some p) (hs : p.stock = []) :
    consumeInProducts pid ps = .outOfStock p.name := by
  induction ps with
  | nil => simp [findProductIn] at h
  | cons p0 ps ih =>
    by_cases hp : p0.id = pid
    · simp [findProductIn, hp] at h
      subst h
      simp [consumeInProducts, hp, hs]
    · simp [findProductIn, hp] at h
      simp [consumeInProducts, hp, ih h]

lemma consumeInProducts_of_cons {pid : Int} {ps : List Product} {p : Product}
    {item : StockItem} {rest : List StockItem}
    (h : findProductIn pid ps = some p) (hs : p.stock = item :: rest) :
    consumeInProducts pid ps =
      .consumed (popFirstProducts pid ps) item p.name rest.length := by
  induction ps with
  | nil => simp [findProductIn] at h
  | cons p0 ps ih =>
    by_cases hp : p0.id = pid
    · simp [findProductIn, hp] at h
      subst h
      simp [consumeInProducts, hp, hs, popFirstProducts]
    · simp [findProductIn, hp] at h
      simp [consumeInProducts, hp, ih h, popFirstProducts]

lemma consume_stock_item_of_none {pid : Int} {c : Catalog}
    (h : findProduct pid c = none) :
    consume_stock_item pid c =
      .error ⟨404, "Product with ID " ++ toString pid ++ " not found"⟩ := by
  induction c with
  | nil => rfl
  | cons kv rest ih =>
    obtain ⟨cname, ps⟩ := kv
    cases hin : findProductIn pid ps with
    | some p0 => simp [findProduct, hin] at h
    | none =>
      simp [findProduct, hin] at h
      simp [consume_stock_item, consumeInProducts_of_none hin, ih h]

lemma consume_stock_item_of_empty {pid : Int} {c : Catalog} {cn : String} {p : Product}
    (h : findProduct pid c = some (cn, p)) (hs : p.stock = []) :
    consume_stock_item pid c =
      .error ⟨400, "Product " ++ p.name ++ " is out of stock"⟩ := by
  induction c with
  | nil => simp [findProduct] at h
  | cons kv rest ih =>
    obtain ⟨cname, ps⟩ := kv
    cases hin : findProductIn pid ps with
    | some p0 =>
      simp [findProduct, hin] at h
      obtain ⟨h1, h2⟩ := h
      subst h2
      simp [consume_stock_item, consumeInProducts_of_empty hin hs]
    | none =>
      simp [findProduct, hin] at h
      simp [consume_stock_item, consumeInProducts_of_none hin, ih h]

lemma consume_stock_item_of_cons {pid : Int} {c : Catalog} {cn : String} {p : Product}
    {item : StockItem} {rest : List StockItem}
    (h : findProduct pid c = some (cn, p)) (hs : p.stock = item :: rest) :
    consume_stock_item pid c =
      .ok (popFirst pid c,
        { success := true
        , product_id := pid
        , product_name := p.name
        , category := cn
        , consumed_license := item
        , remaining_stock := rest.length
        , message := "Stock item consumed successfully" }) := by
  induction c with
  | nil => simp [findProduct] at h
  | cons kv rest2 ih =>
    obtain ⟨cname, ps⟩ := kv
    cases hin : findProductIn pid ps with
    | some p0 =>
      simp [findProduct, hin] at h
      obtain ⟨h1, h2⟩ := h
      subst h1
      subst h2
      simp [consume_stock_item, consumeInProducts_of_cons hin hs, popFirst, hin]
    | none =>
      simp [findProduct, hin] at h
      simp [consume_stock_item, consumeInProducts_of_none hin, ih h, popFirst, hin]

lemma findProductIn_popFirstProducts {pid : Int} {ps : List Product} {p : Product}
    (h : findProductIn pid ps = some p) :
    findProductIn pid (popFirstProducts pid ps) =
      some { p with stock := p.stock.tail } := by
  induction ps with
  | nil => simp [findProductIn] at h
  | cons p0 ps ih =>
    by_cases hp : p0.id = pid
    · simp [findProductIn, hp] at h
      subst h
      simp [popFirstProducts, findProductIn, hp]
    · simp [findProductIn, hp] at h
      simp [popFirstProducts, findProductIn, hp, ih h]

lemma findProduct_popFirst {pid : Int} {c : Catalog} {cn : String} {p : Product}
    (h : findProduct pid c = some (cn, p)) :
    findProduct pid (popFirst pid c) =
      some (cn, { p with stock := p.stock.tail }) := by
  induction c with
  | nil => simp [findProduct] at h
  | cons kv rest ih =>
    obtain ⟨cname, ps⟩ := kv
    cases hin : findProductIn pid ps with
    | some p0 =>
      simp [findProduct, hin] at h
      obtain ⟨h1, h2⟩ := h
      subst h1
      subst h2
      simp [popFirst, hin, findProduct, findProductIn_popFirstProducts hin]
    | none =>
      simp [findProduct, hin] at h
      simp [popFirst, hin, findProduct, ih h]

lemma popFirstProducts_decomp {pid : Int} {ps : List Product} {p : Product}
    (h : findProductIn pid ps = some p) :
    ∃ pre post, ps = pre ++ p :: post ∧ (∀ q ∈ pre, q.id ≠ pid) ∧
      popFirstProducts pid ps = pre ++ { p with stock := p.stock.tail } :: post := by
  induction ps with
  | nil => simp [findProductIn] at h
  | cons p0 ps ih =>
    by_cases hp : p0.id = pid
    · simp [findProductIn, hp] at h
      subst h
      exact ⟨[], ps, by simp, by simp, by simp [popFirstProducts, hp]⟩
    · simp [findProductIn, hp] at h
      rcases ih h with ⟨pre, post, h1, h2, h3⟩
      refine ⟨p0 :: pre, post, by simp [h1], ?_, by simp [popFirstProducts, hp, h3]⟩
      intro q hq
      rcases List.mem_cons.mp hq with rfl | hq2
      · exact hp
      · exact h2 q hq2

lemma get_all_products_popFirst {pid : Int} {c : Catalog} {cn : String} {p : Product}
    (h : findProduct pid c = some (cn, p)) :
    ∃ pre post, get_all_products c = pre ++ p :: post ∧ (∀ q ∈ pre, q.id ≠ pid) ∧
      get_all_products (popFirst pid c) =
        pre ++ { p with stock := p.stock.tail } :: post := by
  induction c with
  | nil => simp [findProduct] at h
  | cons kv rest ih =>
    obtain ⟨cname, ps⟩ := kv
    cases hin : findProductIn pid ps with
    | some p0 =>
      simp [findProduct, hin] at h
      obtain ⟨h1, h2⟩ := h
      subst h1
      subst h2
      rcases popFirstProducts_decomp hin with ⟨pre, post, h1, h2, h3⟩
      refine ⟨pre, post ++ get_all_products rest, ?_, h2, ?_⟩
      · simp [get_all_products, h1]
      · simp [popFirst, hin, get_all_products, h3]
    | none =>
      simp [findProduct, hin] at h
      rcases ih h with ⟨pre, post, h1, h2, h3⟩
      refine ⟨ps ++ pre, post, by simp [get_all_products, h1], ?_, ?_⟩
      · intro q hq
        rcases List.mem_append.mp hq with hq1 | hq2
        · exact findProductIn_eq_none.mp hin q hq1
        · exact h2 q hq2
      · simp [popFirst, hin, get_all_products, h3]

lemma popFirstProducts_length {pid : Int} {ps : List Product} :
    (popFirstProducts pid ps).length = ps.length := by
  induction ps with
  | nil => rfl
  | cons p0 ps ih =>
    by_cases hp : p0.id = pid <;> simp [popFirstProducts, hp, ih]

lemma popFirst_map_fst {pid : Int} {c : Catalog} :
    (popFirst pid c).map Prod.fst = c.map Prod.fst := by
  induction c with
  | nil => rfl
  | cons kv rest ih =>
    obtain ⟨cname, ps⟩ := kv
    cases hin : findProductIn pid ps with
    | some p0 => simp [popFirst, hin]
    | none => simp [popFirst, hin, ih]

lemma popFirst_map_lengths {pid : Int} {c : Catalog} :
    (popFirst pid c).map (fun kv => kv.2.length) =
      c.map (fun kv => kv.2.length) := by
  induction c with
  | nil => rfl
  | cons kv rest ih =>
    obtain ⟨cname, ps⟩ := kv
    cases hin : findProductIn pid ps with
    | some p0 => simp [popFirst, hin, popFirstProducts_length]
    | none => simp [popFirst, hin, ih]

lemma load_stock_data_of_some {t : String} {fs : FS} {c : Catalog}
    (h : fs.stockFile = some c) : load_stock_data t fs = (fs, c) := by
  simp [load_stock_data, h]

lemma total_products_of_eq (c : Catalog) :
    total_products_of c = (c.map (fun kv => kv.2.length)).sum := by
  induction c with
  | nil => rfl
  | cons kv rest ih => simp [total_products_of, ih]

lemma stock_in_products_eq (ps : List Product) :
    stock_in_products ps = (ps.map (fun p => p.stock.length)).sum := by
  induction ps with
  | nil => rfl
  | cons p ps ih => simp [stock_in_products, ih]

lemma total_stock_of_eq (c : Catalog) :
    total_stock_of c = ((get_all_products c).map (fun p => p.stock.length)).sum := by
  induction c with
  | nil => rfl
  | cons kv rest ih =>
    simp [total_stock_of, get_all_products, stock_in_products_eq, ih]

lemma category_low_stock_length (cn : String) (ps : List Product) :
    (category_low_stock cn ps).length =
      ps.countP (fun p => decide (p.stock.length ≤ 3)) := by
  induction ps with
  | nil => rfl
  | cons p ps ih =>
    by_cases h : p.stock.length ≤ 3 <;>
      simp [category_low_stock, h, List.countP_cons, ih]

lemma low_stock_products_of_length (c : Catalog) :
    (low_stock_products_of c).length =
      (get_all_products c).countP (fun p => decide (p.stock.length ≤ 3)) := by
  induction c with
  | nil => rfl
  | cons kv rest ih =>
    simp [low_stock_products_of, get_all_products, List.countP_append,
      category_low_stock_length, ih]

/-! ### Claim theorems -/

/-- C7: every save first copies the existing primary file's content verbatim
into a backup named `stock_backup_<timestamp>.json` and then overwrites the
primary file with the new document; when no primary file exists, no backup
is attempted and the save still succeeds. -/
theorem save_backup_spec (t : String) (d : Catalog) (fs : FS) :
    (save_stock_data t d fs).stockFile = some d ∧
    (∀ old, fs.stockFile = some old →
      (save_stock_data t d fs).backups =
        ("stock_backup_" ++ t ++ ".json", old) :: fs.backups) ∧
    (fs.stockFile = none → (save_stock_data t d fs).backups = fs.backups) := by
  cases h : fs.stockFile <;> simp [save_stock_data, h]

/-- Witness for C7 at a concrete state: one save over an existing file and
one save over a missing file. -/
theorem save_backup_spec_witness :
    (save_stock_data "20250101_000000" [] ⟨some default_data, []⟩).backups =
      [("stock_backup_20250101_000000.json", default_data)] ∧
    (save_stock_data "20250101_000000" [] ⟨none, []⟩).backups = [] := by
  constructor
  · have h := (save_backup_spec "20250101_000000" []
      ⟨some default_data, []⟩).2.1 default_data rfl
    simpa using h
  · exact (save_backup_spec "20250101_000000" [] ⟨none, []⟩).2.2 rfl

/-- C3: loading when the store file is absent synthesizes the fixed
two-category seed catalog, persists it, and returns it; a second load then
returns the same content (save-then-load identity), and the seed has shape
BloodStrike with one product of 2 stock items and Window Protection 11 with
one product of 4 stock items. -/
theorem load_seed_spec (t t2 : String) (fs : FS) (h : fs.stockFile = none) :
    (load_stock_data t fs).2 = default_data ∧
    (load_stock_data t fs).1.stockFile = some default_data ∧
    (load_stock_data t2 (load_stock_data t fs).1).2 = (load_stock_data t fs).2 ∧
    default_data.map Prod.fst = ["BloodStrike", "Window Protection 11"] ∧
    default_data.map (fun kv => kv.2.length) = [1, 1] ∧
    bloodstrike_product.stock.length = 2 ∧
    window_product.stock.length = 4 := by
  refine ⟨?_, ?_, ?_, ?_, ?_, ?_, ?_⟩ <;>
    simp [load_stock_data, save_stock_data, h, default_data,
      bloodstrike_product, window_product]

/-- Witness for C3: a first and second load over an initially empty store. -/
theorem load_seed_spec_witness :
    (⟨none, []⟩ : FS).stockFile = none ∧
    ((load_stock_data "t1" ⟨none, []⟩).2 = default_data ∧
     (load_stock_data "t1" ⟨none, []⟩).1.stockFile = some default_data ∧
     (load_stock_data "t2" (load_stock_data "t1" ⟨none, []⟩).1).2 =
       (load_stock_data "t1" ⟨none, []⟩).2 ∧
     default_data.map Prod.fst = ["BloodStrike", "Window Protection 11"] ∧
     default_data.map (fun kv => kv.2.length) = [1, 1] ∧
     bloodstrike_product.stock.length = 2 ∧
     window_product.stock.length = 4) :=
  ⟨rfl, load_seed_spec "t1" "t2" ⟨none, []⟩ rfl⟩

/-- C10: the read endpoints are deterministic functions of the persisted
file contents and the request input: two invocations over states with equal
stock-file contents, at possibly different times and with different backup
directories, produce equal responses. -/
theorem reads_deterministic_spec (t1 t2 : String) (pid : Int) (name : String)
    (fs1 fs2 : FS) (h : fs1.stockFile = fs2.stockFile) :
    (handle_get_all_products t1 fs1).2 = (handle_get_all_products t2 fs2).2 ∧
    (handle_get_product t1 pid fs1).2 = (handle_get_product t2 pid fs2).2 ∧
    (handle_get_categories t1 fs1).2 = (handle_get_categories t2 fs2).2 ∧
    (handle_get_category t1 name fs1).2 = (handle_get_category t2 name fs2).2 ∧
    (handle_get_stock t1 pid fs1).2 = (handle_get_stock t2 pid fs2).2 := by
  have hl : (load_stock_data t1 fs1).2 = (load_stock_data t2 fs2).2 := by
    cases h2 : fs2.stockFile <;> simp [load_stock_data, h, h2]
  exact ⟨by simp [handle_get_all_products, hl],
    by simp [handle_get_product, hl],
    by simp [handle_get_categories, hl],
    by simp [handle_get_category, hl],
    by simp [handle_get_stock, hl]⟩

/-- Witness for C10: two states with the same stock file but different
backup directories and timestamps give the same product-list response. -/
theorem reads_deterministic_spec_witness :
    (⟨some default_data, []⟩ : FS).stockFile =
      (⟨some default_data, [("b", [])]⟩ : FS).stockFile ∧
    (handle_get_all_products "t1" ⟨some default_data, []⟩).2 =
      (handle_get_all_products "t2" ⟨some default_data, [("b", [])]⟩).2 :=
  ⟨rfl, (reads_deterministic_spec "t1" "t2" 1 "BloodStrike"
    ⟨some default_data, []⟩ ⟨some default_data, [("b", [])]⟩ rfl).1⟩

/-- C4 (amended): provided the primary store file exists, every operation
either fully completes or fails before any write: each read handler (list
products, get product, list categories, get category, stock summary,
dashboard, health) leaves the filesystem state unchanged, and a
consume-stock request that returns an error (404 unknown id or 400 empty
stock) performs no save; only a successful consume mutates the store. -/
theorem no_partial_write_spec (t : String) (pid : Int) (name : String)
    (fs : FS) (c : Catalog) (h : fs.stockFile = some c) :
    (handle_get_all_products t fs).1 = fs ∧
    (handle_get_product t pid fs).1 = fs ∧
    (handle_get_categories t fs).1 = fs ∧
    (handle_get_category t name fs).1 = fs ∧
    (handle_get_stock t pid fs).1 = fs ∧
    (handle_dashboard t fs).1 = fs ∧
    (handle_health t fs).1 = fs ∧
    (∀ e, (handle_consume t pid fs).2 = .error e → (handle_consume t pid fs).1 = fs) := by
  have hl : load_stock_data t fs = (fs, c) := load_stock_data_of_some h
  refine ⟨by simp [handle_get_all_products, hl],
    by simp [handle_get_product, hl],
    by simp [handle_get_categories, hl],
    by simp [handle_get_category, hl],
    by simp [handle_get_stock, hl],
    by simp [handle_dashboard, hl],
    by simp [handle_health, hl], ?_⟩
  intro e he
  cases hc : consume_stock_item pid c with
  | ok pr =>
    obtain ⟨c2, resp⟩ := pr
    simp [handle_consume, hl, hc] at he
  | error e0 =>
    simp [handle_consume, hl, hc]

/-- Witness for C4 (amended) at the seed catalog: a 404 consume writes
nothing and a read handler writes nothing. -/
theorem no_partial_write_spec_witness :
    (⟨some default_data, []⟩ : FS).stockFile = some default_data ∧
    (handle_get_all_products "t" ⟨some default_data, []⟩).1 =
      (⟨some default_data, []⟩ : FS) ∧
    (∀ e, (handle_consume "t" 99 ⟨some default_data, []⟩).2 = .error e →
      (handle_consume "t" 99 ⟨some default_data, []⟩).1 =
        (⟨some default_data, []⟩ : FS)) :=
  ⟨rfl,
    (no_partial_write_spec "t" 99 "x" ⟨some default_data, []⟩ default_data rfl).1,
    (no_partial_write_spec "t" 99 "x" ⟨some default_data, []⟩ default_data rfl).2.2.2.2.2.2.2⟩

/-- C4 counterexample: when the primary store file is absent, even a pure
read operation writes to the store (the load seeds and persists the default
catalog), so "every read operation leaves the persisted catalog unchanged"
fails as stated. -/
theorem read_write_counterexample :
    (handle_get_all_products "20250101_000000" ⟨none, []⟩).1 ≠ (⟨none, []⟩ : FS) := by
  decide

/-- C5: for every catalog, the dashboard reports the number of categories,
the total number of products, the sum of all stock lengths, and the number
of products whose stock length is at most 3; on the seed catalog these are
2, 2, 6 and 1. -/
theorem dashboard_spec (t : String) (c : Catalog) :
    (get_dashboard_stats t c).total_categories = c.length ∧
    (get_dashboard_stats t c).total_products =
      (c.map (fun kv => kv.2.length)).sum ∧
    (get_dashboard_stats t c).total_stock_items =
      ((get_all_products c).map (fun p => p.stock.length)).sum ∧
    (get_dashboard_stats t c).low_stock_count =
      (get_all_products c).countP (fun p => decide (p.stock.length ≤ 3)) ∧
    (get_dashboard_stats t default_data).total_categories = 2 ∧
    (get_dashboard_stats t default_data).total_products = 2 ∧
    (get_dashboard_stats t default_data).total_stock_items = 6 ∧
    (get_dashboard_stats t default_data).low_stock_count = 1 := by
  refine ⟨rfl, total_products_of_eq c, total_stock_of_eq c,
    low_stock_products_of_length c, rfl, rfl, ?_, ?_⟩ <;>
    simp [get_dashboard_stats, total_stock_of, stock_in_products,
      low_stock_products_of, category_low_stock, default_data,
      bloodstrike_product, window_product]

lemma consumeIter_findProduct {pid : Int} {c : Catalog} {cn : String} {p : Product}
    (h : findProduct pid c = some (cn, p)) :
    ∀ k, k ≤ p.stock.length →
      findProduct pid (consumeIter pid c k) =
        some (cn, { p with stock := p.stock.drop k }) := by
  intro k
  induction k with
  | zero =>
    intro _
    simpa [consumeIter] using h
  | succ k ih =>
    intro hk1
    have hk : k < p.stock.length := hk1
    have ihk := ih (Nat.le_of_lt hk)
    have hd : p.stock.drop k = p.stock.get ⟨k, hk⟩ :: p.stock.drop (k + 1) := by
      rw [List.drop_eq_getElem_cons hk]
      simp only [List.get_eq_getElem]
    have hcons := consume_stock_item_of_cons ihk
      (show ({ p with stock := p.stock.drop k } : Product).stock = _ from hd)
    have hstep : consumeIter pid c (k + 1) = popFirst pid (consumeIter pid c k) := by
      simp [consumeIter, hcons]
    rw [hstep]
    have hfp := findProduct_popFirst ihk
    rw [hfp]
    simp only [hd, List.tail_cons]

/-- C2: for a product with N stock items, the k-th of N successive consume
requests (0-based) succeeds and returns the k-th license in original
sequence order with remaining stock N-(k+1); after N consumes the stock is
empty and the (N+1)-th consume returns HTTP 400. -/
theorem consume_fifo_spec (pid : Int) (c : Catalog) (cn : String) (p : Product)
    (h : findProduct pid c = some (cn, p)) :
    (∀ k, (hk : k < p.stock.length) →
      consume_stock_item pid (consumeIter pid c k) =
        .ok (consumeIter pid c (k + 1),
          { success := true
          , product_id := pid
          , product_name := p.name
          , category := cn
          , consumed_license := p.stock.get ⟨k, hk⟩
          , remaining_stock := p.stock.length - (k + 1)
          , message := "Stock item consumed successfully" })) ∧
    findProduct pid (consumeIter pid c p.stock.length) =
      some (cn, { p with stock := [] }) ∧
    consume_stock_item pid (consumeIter pid c p.stock.length) =
      .error ⟨400, "Product " ++ p.name ++ " is out of stock"⟩ := by
  refine ⟨?_, ?_, ?_⟩
  · intro k hk
    have ihk := consumeIter_findProduct h k (Nat.le_of_lt hk)
    have hd : p.stock.drop k = p.stock.get ⟨k, hk⟩ :: p.stock.drop (k + 1) := by
      rw [List.drop_eq_getElem_cons hk]
      simp only [List.get_eq_getElem]
    have hcons := consume_stock_item_of_cons ihk
      (show ({ p with stock := p.stock.drop k } : Product).stock = _ from hd)
    have hstep : consumeIter pid c (k + 1) = popFirst pid (consumeIter pid c k) := by
      simp [consumeIter, hcons]
    rw [hstep, hcons]
    simp
  · have hN := consumeIter_findProduct h p.stock.length (le_refl _)
    simpa using hN
  · have hN := consumeIter_findProduct h p.stock.length (le_refl _)
    have h400 := consume_stock_item_of_empty hN (by simp)
    simpa using h400

/-- Witness for C2 at the seed catalog: product 1 has 2 stock items; both
consumes succeed FIFO and the third returns 400. -/
theorem consume_fifo_spec_witness :
    findProduct 1 default_data = some ("BloodStrike", bloodstrike_product) ∧
    ((∀ k, (hk : k < bloodstrike_product.stock.length) →
      consume_stock_item 1 (consumeIter 1 default_data k) =
        .ok (consumeIter 1 default_data (k + 1),
          { success := true
          , product_id := 1
          , product_name := bloodstrike_product.name
          , category := "BloodStrike"
          , consumed_license := bloodstrike_product.stock.get ⟨k, hk⟩
          , remaining_stock := bloodstrike_product.stock.length - (k + 1)
          , message := "Stock item consumed successfully" })) ∧
    findProduct 1 (consumeIter 1 default_data bloodstrike_product.stock.length) =
      some ("BloodStrike", { bloodstrike_product with stock := [] }) ∧
    consume_stock_item 1 (consumeIter 1 default_data bloodstrike_product.stock.length) =
      .error ⟨400, "Product " ++ bloodstrike_product.name ++ " is out of stock"⟩) :=
  ⟨rfl, consume_fifo_spec 1 default_data "BloodStrike" bloodstrike_product rfl⟩

/-- C1: over a store holding catalog `c`, the consume handler pops the head
stock item of the first product matching the id, persists the updated
catalog, and answers with the consumed license, the remaining count, the
owning category and the product name; it returns HTTP 400 (and writes
nothing) when the product exists with empty stock, and HTTP 404 (and writes
nothing) when no product has the id. -/
theorem consume_stock_spec (t : String) (pid : Int) (fs : FS) (c : Catalog)
    (h : fs.stockFile = some c) :
    (∀ cn p item rest, findProduct pid c = some (cn, p) →
      p.stock = item :: rest →
      (handle_consume t pid fs).2 = .ok
        { success := true
        , product_id := pid
        , product_name := p.name
        , category := cn
        , consumed_license := item
        , remaining_stock := rest.length
        , message := "Stock item consumed successfully" } ∧
      (handle_consume t pid fs).1.stockFile = some (popFirst pid c) ∧
      findProduct pid (popFirst pid c) = some (cn, { p with stock := rest })) ∧
    (∀ cn p, findProduct pid c = some (cn, p) → p.stock = [] →
      (handle_consume t pid fs).2 =
        .error ⟨400, "Product " ++ p.name ++ " is out of stock"⟩ ∧
      (handle_consume t pid fs).1 = fs) ∧
    (findProduct pid c = none →
      (handle_consume t pid fs).2 =
        .error ⟨404, "Product with ID " ++ toString pid ++ " not found"⟩ ∧
      (handle_consume t pid fs).1 = fs) := by
  have hl : load_stock_data t fs = (fs, c) := load_stock_data_of_some h
  refine ⟨?_, ?_, ?_⟩
  · intro cn p item rest hf hs
    have hc := consume_stock_item_of_cons hf hs
    have hfp := findProduct_popFirst hf
    refine ⟨by simp [handle_consume, hl, hc],
      by simp [handle_consume, hl, hc, save_stock_data, h], ?_⟩
    rw [hfp]
    simp only [hs, List.tail_cons]
  · intro cn p hf hs
    have hc := consume_stock_item_of_empty hf hs
    exact ⟨by simp [handle_consume, hl, hc], by simp [handle_consume, hl, hc]⟩
  · intro hf
    have hc := consume_stock_item_of_none hf
    exact ⟨by simp [handle_consume, hl, hc], by simp [handle_consume, hl, hc]⟩

/-- Witness for C1 at the seed catalog: consuming product 1 pops its first
license, persists the updated catalog and reports remaining stock 1. -/
theorem consume_stock_spec_witness :
    (⟨some default_data, []⟩ : FS).stockFile = some default_data ∧
    findProduct 1 default_data = some ("BloodStrike", bloodstrike_product) ∧
    bloodstrike_product.stock =
      { license := "email@example.com:password123" } ::
        [{ license := "email2@example.com:password456" }] ∧
    ((handle_consume "t" 1 ⟨some default_data, []⟩).2 = .ok
      { success := true
      , product_id := 1
      , product_name := bloodstrike_product.name
      , category := "BloodStrike"
      , consumed_license := { license := "email@example.com:password123" }
      , remaining_stock := [({ license := "email2@example.com:password456" } : StockItem)].length
      , message := "Stock item consumed successfully" } ∧
    (handle_consume "t" 1 ⟨some default_data, []⟩).1.stockFile =
      some (popFirst 1 default_data) ∧
    findProduct 1 (popFirst 1 default_data) =
      some ("BloodStrike",
        { bloodstrike_product with
            stock := [{ license := "email2@example.com:password456" }] })) :=
  ⟨rfl, rfl, rfl,
    (consume_stock_spec "t" 1 ⟨some default_data, []⟩ default_data rfl).1
      "BloodStrike" bloodstrike_product
      { license := "email@example.com:password123" }
      [{ license := "email2@example.com:password456" }] rfl rfl⟩

/-- C6: when product ids are unique across the catalog, looking up any
product's id returns exactly that product, and looking up an id held by no
product returns HTTP 404. -/
theorem get_product_spec (pid : Int) (c : Catalog)
    (huniq : ((get_all_products c).map Product.id).Nodup) :
    (∀ p ∈ get_all_products c, get_product p.id c = .ok p) ∧
    ((∀ q ∈ get_all_products c, q.id ≠ pid) →
      get_product pid c =
        .error ⟨404, "Product with ID " ++ toString pid ++ " not found"⟩) := by
  constructor
  · intro p hp
    rcases findProduct_of_mem hp with ⟨cn, q, hq, hqid⟩
    have hqmem : q ∈ get_all_products c := findProduct_mem hq
    have heq : q = p := List.inj_on_of_nodup_map huniq hqmem hp hqid
    simp [get_product, hq, heq]
  · intro hno
    simp [get_product, findProduct_eq_none.mpr hno]

/-- Witness for C6 at the seed catalog: ids are unique, each seed product is
found by its id, and id 99 yields a 404. -/
theorem get_product_spec_witness :
    ((get_all_products default_data).map Product.id).Nodup ∧
    (∀ p ∈ get_all_products default_data, get_product p.id default_data = .ok p) ∧
    ((∀ q ∈ get_all_products default_data, q.id ≠ 99) →
      get_product 99 default_data =
        .error ⟨404, "Product with ID " ++ toString (99 : Int) ++ " not found"⟩) := by
  refine ⟨by decide, ?_⟩
  exact get_product_spec 99 default_data (by decide)

/-- C8: a successful consume changes nothing in the persisted catalog
except the target product's stock sequence: category names and their order,
every category's product count, every product before and after the target
(in flattening order), and all non-stock fields of the target are unchanged
in the catalog written by the save. -/
theorem consume_frame_spec (t : String) (pid : Int) (fs : FS) (c : Catalog)
    (cn : String) (p : Product) (item : StockItem) (rest : List StockItem)
    (hfs : fs.stockFile = some c) (hf : findProduct pid c = some (cn, p))
    (hs : p.stock = item :: rest) :
    ∃ c2, (handle_consume t pid fs).1.stockFile = some c2 ∧
      c2.map Prod.fst = c.map Prod.fst ∧
      c2.map (fun kv => kv.2.length) = c.map (fun kv => kv.2.length) ∧
      ∃ u pre post, get_all_products c = pre ++ p :: post ∧
        (∀ q ∈ pre, q.id ≠ pid) ∧
        get_all_products c2 = pre ++ u :: post ∧
        u.id = p.id ∧ u.name = p.name ∧ u.image = p.image ∧
        u.imagehover = p.imagehover ∧ u.description = p.description ∧
        u.price = p.price ∧ u.delivery_method = p.delivery_method ∧
        u.stock = rest := by
  have hl : load_stock_data t fs = (fs, c) := load_stock_data_of_some hfs
  have hc := consume_stock_item_of_cons hf hs
  refine ⟨popFirst pid c,
    by simp [handle_consume, hl, hc, save_stock_data, hfs],
    popFirst_map_fst, popFirst_map_lengths, ?_⟩
  rcases get_all_products_popFirst hf with ⟨pre, post, h1, h2, h3⟩
  refine ⟨{ p with stock := p.stock.tail }, pre, post, h1, h2, h3,
    rfl, rfl, rfl, rfl, rfl, rfl, rfl, by simp [hs]⟩

/-- Witness for C8 at the seed catalog: consuming product 2 preserves the
category names, the per-category product counts, and all other fields. -/
theorem consume_frame_spec_witness :
    ((⟨some default_data, []⟩ : FS).stockFile = some default_data ∧
     findProduct 2 default_data = some ("Window Protection 11", window_product) ∧
     window_product.stock =
       { license := "email@example.com:password123" } ::
         [ ({ license := "email2@example.com:password456" } : StockItem)
         , { license := "email2@example.com:password456" }
         , { license := "email2@example.com:password456" } ]) ∧
    (∃ c2, (handle_consume "t" 2 ⟨some default_data, []⟩).1.stockFile = some c2 ∧
      c2.map Prod.fst = default_data.map Prod.fst ∧
      c2.map (fun kv => kv.2.length) = default_data.map (fun kv => kv.2.length) ∧
      ∃ u pre post, get_all_products default_data = pre ++ window_product :: post ∧
        (∀ q ∈ pre, q.id ≠ 2) ∧
        get_all_products c2 = pre ++ u :: post ∧
        u.id = window_product.id ∧ u.name = window_product.name ∧
        u.image = window_product.image ∧
        u.imagehover = window_product.imagehover ∧
        u.description = window_product.description ∧
        u.price = window_product.price ∧
        u.delivery_method = window_product.delivery_method ∧
        u.stock =
          [ ({ license := "email2@example.com:password456" } : StockItem)
          , { license := "email2@example.com:password456" }
          , { license := "email2@example.com:password456" } ]) :=
  ⟨⟨rfl, rfl, rfl⟩,
    consume_frame_spec "t" 2 ⟨some default_data, []⟩ default_data
      "Window Protection 11" window_product
      { license := "email@example.com:password123" }
      [ { license := "email2@example.com:password456" }
      , { license := "email2@example.com:password456" }
      , { license := "email2@example.com:password456" } ] rfl rfl rfl⟩

/-- First product of the duplicate-id example catalog. -/
def dup_product_a : Product :=
  { id := 5, name := "First Copy", image := "imgA", imagehover := none
  , description := "first", price := 1, delivery_method := "instant"
  , stock := [{ license := "LIC-A" }] }

/-- Second product of the duplicate-id example catalog, sharing id 5. -/
def dup_product_b : Product :=
  { id := 5, name := "Second Copy", image := "imgB", imagehover := none
  , description := "second", price := 2, delivery_method := "Waiting"
  , stock := [{ license := "LIC-B" }] }

/-- A catalog violating id uniqueness: two products with id 5. -/
def dup_catalog : Catalog :=
  [("CatA", [dup_product_a]), ("CatB", [dup_product_b])]

/-- C9: with duplicate ids, the lookup, stock-summary and consume operations
all act on the first matching product in iteration order (no product before
it matches), and a successful consume leaves every product after it — in
particular every later duplicate — untouched. -/
theorem duplicate_first_match_spec (pid : Int) (c : Catalog) (cn : String)
    (p : Product) (hf : findProduct pid c = some (cn, p)) :
    get_product pid c = .ok p ∧
    get_product_stock pid c = .ok
      { product_id := pid
      , product_name := p.name
      , category := cn
      , stock_count := p.stock.length
      , available := decide (0 < p.stock.length)
      , delivery_method := p.delivery_method } ∧
    ∃ pre post, get_all_products c = pre ++ p :: post ∧
      (∀ q ∈ pre, q.id ≠ pid) ∧
      ∀ item rest, p.stock = item :: rest →
        ∃ resp, consume_stock_item pid c = .ok (popFirst pid c, resp) ∧
          get_all_products (popFirst pid c) =
            pre ++ { p with stock := rest } :: post := by
  refine ⟨by simp [get_product, hf], by simp [get_product_stock, hf], ?_⟩
  rcases get_all_products_popFirst hf with ⟨pre, post, h1, h2, h3⟩
  refine ⟨pre, post, h1, h2, ?_⟩
  intro item rest hs
  refine ⟨_, consume_stock_item_of_cons hf hs, ?_⟩
  rw [h3]
  simp only [hs, List.tail_cons]

/-- Witness for C9 on a catalog with two products sharing id 5: operations
pick the first copy and consuming leaves the second copy's stock intact. -/
theorem duplicate_first_match_spec_witness :
    findProduct 5 dup_catalog = some ("CatA", dup_product_a) ∧
    (get_product 5 dup_catalog = .ok dup_product_a ∧
     get_product_stock 5 dup_catalog = .ok
       { product_id := 5
       , product_name := dup_product_a.name
       , category := "CatA"
       , stock_count := dup_product_a.stock.length
       , available := decide (0 < dup_product_a.stock.length)
       , delivery_method := dup_product_a.delivery_method } ∧
     ∃ pre post, get_all_products dup_catalog = pre ++ dup_product_a :: post ∧
       (∀ q ∈ pre, q.id ≠ 5) ∧
       ∀ item rest, dup_product_a.stock = item :: rest →
         ∃ resp, consume_stock_item 5 dup_catalog = .ok (popFirst 5 dup_catalog, resp) ∧
           get_all_products (popFirst 5 dup_catalog) =
             pre ++ { dup_product_a with stock := rest } :: post) :=
  ⟨rfl, duplicate_first_match_spec 5 dup_catalog "CatA" dup_product_a rfl⟩
